import Mathlib

/-!
Verification of the medscope-ai semantic retrieval engine
(`scripts/search_engine.py`, `scripts/embedding_generator.py`).

The Python code is shallowly embedded: strings are Lean strings, float scores
are exact rationals, a raised exception is `Except.error`, and a source file
that is missing or unreadable is `none`.  The external sentence-transformer
embedder is a collaborator: the only thing the engine sees of it is, per query,
the vector of similarity scores of the stored embeddings against the encoded
query, so the pipeline takes that score vector as an input (every float score
vector is a vector of rationals, since every finite float is rational).
-/

namespace MedScope

set_option maxRecDepth 20000
set_option linter.unusedVariables false

/-! ## Python string primitives -/

/-- Python whitespace as used by str.strip and str.split. -/
def pyIsSpace (c : Char) : Bool :=
  c = ' ' || c = '\t' || c = '\n' || c = '\r' || c = '\x0b' || c = '\x0c'

/-- str.strip(): drop leading and trailing whitespace. -/
def pyStrip (s : String) : String :=
  ⟨((s.toList.dropWhile pyIsSpace).reverse.dropWhile pyIsSpace).reverse⟩

/-- str.lower() (ASCII model, which covers the engine's inputs). -/
def pyLower (s : String) : String := ⟨s.toList.map Char.toLower⟩

/-- Word-splitting worker for str.split(): runs of whitespace separate words,
    empty pieces are dropped.  The first argument accumulates the current word
    reversed. -/
def pySplitChars : List Char → List Char → List String
  | acc, [] => if acc.isEmpty then [] else [⟨acc.reverse⟩]
  | acc, c :: cs =>
    if pyIsSpace c then
      if acc.isEmpty then pySplitChars [] cs else ⟨acc.reverse⟩ :: pySplitChars [] cs
    else pySplitChars (c :: acc) cs

/-- str.split() with no arguments. -/
def pySplit (s : String) : List String := pySplitChars [] s.toList

/-- Substring occurrence test on character lists. -/
def infixAt : List Char → List Char → Bool
  | sub, [] => sub.isEmpty
  | sub, c :: cs => sub.isPrefixOf (c :: cs) || infixAt sub cs

/-- Python substring test `sub in s`. -/
def pyInStr (sub s : String) : Bool := infixAt sub.toList s.toList

/-- Is the first character (if any) a non-whitespace character? -/
def headNotSpace : List Char → Bool
  | [] => true
  | d :: _ => !pyIsSpace d

/-- A character list is single-spaced when its only whitespace character is the
    plain space and no whitespace character is followed by another whitespace
    character.  Every topic in the curated topic list is single-spaced, which is
    what makes whitespace-only partial queries other than a single space match
    no topic. -/
def singleSpaced : List Char → Bool
  | [] => true
  | c :: cs => (!pyIsSpace c || (c == ' ' && headNotSpace cs)) && singleSpaced cs

/-- str.isdigit() (ASCII model): nonempty and all characters are digits. -/
def pyIsdigit (s : String) : Bool := !(s == "") && s.toList.all Char.isDigit

/-- Numeric value of a digit string. -/
def digitsVal (ds : List Char) : Int :=
  Int.ofNat (ds.foldl (fun n c => 10 * n + (c.toNat - '0'.toNat)) 0)

/-- int(str): optional surrounding whitespace, an optional sign, then a nonempty
    run of digits (digit-grouping underscores are not modelled); any other
    string raises ValueError, modelled as `none`. -/
def pyInt (s : String) : Option Int :=
  match (pyStrip s).toList with
  | '+' :: ds => if !ds.isEmpty && ds.all Char.isDigit then some (digitsVal ds) else none
  | '-' :: ds => if !ds.isEmpty && ds.all Char.isDigit then some (-(digitsVal ds)) else none
  | ds => if !ds.isEmpty && ds.all Char.isDigit then some (digitsVal ds) else none

/-- Python truthiness of an optional string: None and the empty string are
    falsy, everything else is truthy. -/
def pyTruthy : Option String → Bool
  | none => false
  | some s => !(s == "")

/-! ## re.sub with word boundaries

`preprocess_query` replaces each abbreviation with `re.sub(rf'\b{abbr}\b', ...)`.
All abbreviations consist of word characters, so the pattern matches an
occurrence of the abbreviation whose neighbouring characters (when they exist)
are non-word characters.  `re.sub` scans left to right, replaces every
non-overlapping match, and does not rescan replacement text within one call. -/

/-- Regex word character `\w` (ASCII model): letters, digits, underscore. -/
def isWordChar (c : Char) : Bool := c.isAlphanum || c = '_'

/-- Does a word boundary precede the match? The previous character of the
    original string (if any) must not be a word character. -/
def prevBoundary : Option Char → Bool
  | none => true
  | some c => !isWordChar c

/-- Does a word boundary follow the match? The rest of the original string must
    be empty or start with a non-word character. -/
def afterBoundary : List Char → Bool
  | [] => true
  | d :: _ => !isWordChar d

/-- One pass of `re.sub(rf'\b{abbr}\b', exp, s)` over the original character
    list, where the pattern is `a :: as`.  `prev` is the character of the
    original string just before the current position.  The fuel argument equals
    the remaining length, which bounds the recursion (each step consumes at
    least one character). -/
def subWordFuel (a : Char) (as exp : List Char) : Nat → Option Char → List Char → List Char
  | 0, _, s => s
  | _ + 1, _, [] => []
  | n + 1, prev, c :: cs =>
    if prevBoundary prev && (a :: as).isPrefixOf (c :: cs)
        && afterBoundary ((c :: cs).drop (as.length + 1)) then
      exp ++ subWordFuel a as exp n (some (as.getLastD a)) ((c :: cs).drop (as.length + 1))
    else
      c :: subWordFuel a as exp n (some c) cs

/-- `re.sub(rf'\b{abbr}\b', exp, s)` for a nonempty all-word-character pattern
    (every abbreviation in the table is such a pattern). -/
def reSubWord (abbr exp s : String) : String :=
  match abbr.toList with
  | [] => s
  | a :: as => ⟨subWordFuel a as exp.toList s.toList.length none s.toList⟩

/-! ## Query preprocessing (search_engine.py lines 22-45) -/

/-- The abbreviation table, in its Python dict insertion order (Python dicts
    iterate in insertion order). -/
def abbreviations : List (String × String) :=
  [("rct", "randomized controlled trial"),
   ("rcts", "randomized controlled trials"),
   ("covid", "covid-19 coronavirus"),
   ("ai", "artificial intelligence"),
   ("ml", "machine learning"),
   ("pt", "physical therapy physiotherapy"),
   ("oa", "osteoarthritis"),
   ("dm", "diabetes mellitus"),
   ("htn", "hypertension"),
   ("mi", "myocardial infarction"),
   ("copd", "chronic obstructive pulmonary disease")]

/-- MedScopeSearchEngine.preprocess_query: lowercase, strip, then apply the
    whole-word substitution for each table entry in order. -/
def preprocess_query (query : String) : String :=
  abbreviations.foldl (fun q p => reSubWord p.1 p.2 q) (pyStrip (pyLower query))

/-! ## Data model -/

/-- One metadata record, as built by EmbeddingGenerator.generate_embeddings and
    stored in metadata.json.  The code reads the year back as
    `str(result.get('year', ''))`, so the model holds the string rendering. -/
structure PaperMeta where
  id : String
  title : String
  authors : String
  journal : String
  year : String
  doi : String
  keywords : String
  abstract : String
deriving DecidableEq, Repr, Inhabited

/-- A candidate produced by search_similar_papers: a metadata record plus its
    similarity score (embedding_generator.py lines 104-108). -/
structure RankedResult where
  meta : PaperMeta
  similarity_score : ℚ
deriving DecidableEq, Repr

/-- A result as returned by search, after the derived fields are attached
    (search_engine.py lines 92-96). -/
structure FinalResult where
  meta : PaperMeta
  similarity_score : ℚ
  search_query : String
  processed_query : String
  similarity_percentage : ℚ
deriving DecidableEq, Repr

/-- One element of the list search returns: either the sentinel error dict or a
    result dict. -/
inductive ResultItem where
  | error (msg : String)
  | paper (r : FinalResult)
deriving DecidableEq, Repr

/-- Engine state: the readiness flag of MedScopeSearchEngine plus the corpus
    held by its EmbeddingGenerator. -/
structure Engine where
  is_ready : Bool
  embeddings : List (List ℚ)
  metadata : List PaperMeta
deriving DecidableEq, Repr

/-! ## Loading (embedding_generator.py lines 79-86, search_engine.py lines 11-20) -/

/-- EmbeddingGenerator.load_embeddings.  A source is `none` when its file is
    missing or unreadable (np.load / open / json.load raise, modelled as
    `Except.error`).  Note that the code performs no length comparison between
    the two collections: any two present sources load. -/
def load_embeddings (vectors_source : Option (List (List ℚ)))
    (metadata_source : Option (List PaperMeta)) :
    Except Unit (List (List ℚ) × List PaperMeta) :=
  match vectors_source, metadata_source with
  | some e, some m => .ok (e, m)
  | _, _ => .error ()

/-- MedScopeSearchEngine.__init__: attempt the load, catch any exception, and
    record readiness.  np.load runs before json.load, so when only the metadata
    source fails the embeddings already loaded stay assigned. -/
def initEngine (vectors_source : Option (List (List ℚ)))
    (metadata_source : Option (List PaperMeta)) : Engine :=
  match vectors_source, metadata_source with
  | some e, some m => { is_ready := true, embeddings := e, metadata := m }
  | some e, none => { is_ready := false, embeddings := e, metadata := [] }
  | none, _ => { is_ready := false, embeddings := [], metadata := [] }

/-! ## Cosine similarity (embedding_generator.py lines 96-99) -/

/-- np.dot of two equal-length vectors. -/
def dot : List ℚ → List ℚ → ℚ
  | a :: as, b :: bs => a * b + dot as bs
  | _, _ => 0

/-- Squared Euclidean norm. -/
def normSq (u : List ℚ) : ℚ := dot u u

/-- np.linalg.norm: the Euclidean norm, an irrational real in general. -/
noncomputable def norm2 (u : List ℚ) : ℝ := Real.sqrt ((normSq u : ℚ) : ℝ)

/-- Lines 98-99: `similarities = dot / (norm * norm)` with no zero guard.  When
    the divisor is zero, numpy produces NaN (for 0/0) or ±inf — not 0 and not a
    Python exception; that outcome is modelled as `none`.  The divisor
    `norm2 u * norm2 v` is zero exactly when `normSq u * normSq v = 0`
    (lemma `norm2_mul_eq_zero` below), which keeps the branch decidable. -/
noncomputable def cosineSim (u v : List ℚ) : Option ℝ :=
  if normSq u * normSq v = 0 then none
  else some (((dot u v : ℚ) : ℝ) / (norm2 u * norm2 v))

/-! ## Ranking (embedding_generator.py lines 88-111)

Line 102 is `top_indices = np.argsort(similarities)[::-1][:top_k]`.  np.argsort
returns the indices that sort the scores ascending; on ties it keeps the
original index order (its introsort runs insertion sort on small inputs, and
the engine's corpus is small), so it is modelled as a stable insertion sort of
the indices by ascending score. -/

/-- Insert index `i` into an index list already sorted by ascending score,
    placing `i` after any index with an equal score (stability: when this is
    called, every index in the list is smaller than `i`). -/
def insertRank (xs : List ℚ) (i : Nat) : List Nat → List Nat
  | [] => [i]
  | j :: js => if xs.getD i 0 < xs.getD j 0 then i :: j :: js else j :: insertRank xs i js

/-- np.argsort: the indices `0 .. n-1` sorted stably by ascending score. -/
def argsort (xs : List ℚ) : List Nat :=
  (List.range xs.length).foldl (fun acc i => insertRank xs i acc) []

/-- Line 102: `np.argsort(similarities)[::-1][:top_k]`. -/
def topIndices (xs : List ℚ) (top_k : Nat) : List Nat :=
  ((argsort xs).reverse).take top_k

/-- EmbeddingGenerator.search_similar_papers, given the score vector `sims` of
    the stored embeddings against the encoded query (one score per stored
    embedding, so the `len(self.embeddings) == 0` guard on line 90 is a guard on
    `sims`).  Lines 104-108 build one result record per selected index; the
    metadata indexing is in range whenever the metadata collection is at least
    as long as the embedding collection (the corpus alignment invariant). -/
def search_similar_papers (sims : List ℚ) (metadata : List PaperMeta) (top_k : Nat) :
    List RankedResult :=
  if sims.length = 0 then []
  else (topIndices sims top_k).map (fun i =>
    { meta := metadata.getD i default, similarity_score := sims.getD i 0 })

/-! ## Year filter (search_engine.py lines 47-66) -/

/-- The loop body of filter_by_year over the result list.  `Except.error` models
    the uncaught ValueError raised by `int(paper_year)` on line 58; the
    short-circuit `if paper_year and int(paper_year) >= 2022` skips records with
    an empty year without calling int. -/
def filter_by_year_go (year_filter : String) :
    List RankedResult → Except Unit (List RankedResult)
  | [] => .ok []
  | r :: rs =>
    if pyLower year_filter == "recent" || pyLower year_filter == "latest" then
      if r.meta.year == "" then filter_by_year_go year_filter rs
      else
        match pyInt r.meta.year with
        | none => .error ()
        | some y =>
          if 2022 ≤ y then (filter_by_year_go year_filter rs).map (fun rest => r :: rest)
          else filter_by_year_go year_filter rs
    else if pyIsdigit year_filter then
      if r.meta.year == year_filter then
        (filter_by_year_go year_filter rs).map (fun rest => r :: rest)
      else filter_by_year_go year_filter rs
    else (filter_by_year_go year_filter rs).map (fun rest => r :: rest)

/-- MedScopeSearchEngine.filter_by_year.  `if not year_filter: return results`
    passes both None and the empty string through unchanged. -/
def filter_by_year (results : List RankedResult) (year_filter : Option String) :
    Except Unit (List RankedResult) :=
  if pyTruthy year_filter then filter_by_year_go (year_filter.getD "") results
  else .ok results

/-! ## Search (search_engine.py lines 68-100) -/

/-- Lines 82-85: over-fetch `2 * top_k` ranked candidates for the processed
    query, then drop every candidate whose score is below `min_similarity`. -/
def searchCandidates (eg : Engine) (simsOf : String → List ℚ) (query : String)
    (top_k : Nat) (min_similarity : ℚ) : List RankedResult :=
  (search_similar_papers (simsOf (preprocess_query query)) eg.metadata (top_k * 2)).filter
    (fun r => decide (min_similarity ≤ r.similarity_score))

/-- Lines 87-89: `if year_filter: results = self.filter_by_year(results,
    year_filter)` — the filter runs only on a truthy filter value. -/
def yearStep (results : List RankedResult) (year_filter : Option String) :
    Except Unit (List RankedResult) :=
  if pyTruthy year_filter then filter_by_year results year_filter else .ok results

/-- Banker (half-to-even) integer rounding, as Python round() rounds (modelled
    on the exact rational rather than on the binary float). -/
def roundHalfEven (x : ℚ) : ℤ :=
  let f := ⌊x⌋
  let r := x - (f : ℚ)
  if r < 1 / 2 then f
  else if 1 / 2 < r then f + 1
  else if f % 2 = 0 then f else f + 1

/-- Python round(x, 1). -/
def round1 (x : ℚ) : ℚ := ((roundHalfEven (x * 10) : ℤ) : ℚ) / 10

/-- Lines 92-96: attach the derived fields to a surviving result.
    `similarity_percentage` is `round(similarity_score * 100, 1)`. -/
def finalize (query processed : String) (r : RankedResult) : FinalResult :=
  { meta := r.meta, similarity_score := r.similarity_score,
    search_query := query, processed_query := processed,
    similarity_percentage := round1 (r.similarity_score * 100) }

/-- MedScopeSearchEngine.search.  A not-ready engine returns the single
    sentinel error dict (line 73-74).  `Except.error` models an uncaught
    exception escaping from filter_by_year. -/
def search (eg : Engine) (simsOf : String → List ℚ) (query : String) (top_k : Nat)
    (year_filter : Option String) (min_similarity : ℚ) : Except Unit (List ResultItem) :=
  if eg.is_ready = false then
    .ok [.error "Search engine not properly initialized"]
  else
    match yearStep (searchCandidates eg simsOf query top_k min_similarity) year_filter with
    | .error e => .error e
    | .ok kept =>
      .ok ((kept.take top_k).map
        (fun r => ResultItem.paper (finalize query (preprocess_query query) r)))

/-! ## Suggestions (search_engine.py lines 102-125) -/

/-- The curated topic list, in declaration order. -/
def topics : List String :=
  ["randomized controlled trials",
   "systematic review meta-analysis",
   "covid-19 vaccine effectiveness",
   "machine learning medical diagnosis",
   "physical therapy knee osteoarthritis",
   "telemedicine rural healthcare",
   "mindfulness stress reduction healthcare workers",
   "artificial intelligence radiology",
   "diabetes management interventions",
   "cancer immunotherapy clinical trials"]

/-- MedScopeSearchEngine.get_search_suggestions: keep, in declaration order,
    the topics that contain the lowercased partial query as a substring or that
    contain one of its whitespace-split words, capped at 5.  The method reads no
    engine state — in particular, it performs no readiness check. -/
def get_search_suggestions (eg : Engine) (partial_query : String) : List String :=
  let partial_lower := pyLower partial_query
  (topics.filter (fun topic =>
    pyInStr partial_lower topic ||
      (pySplit partial_lower).any (fun word => pyInStr word topic))).take 5

/-! ## Statistics (search_engine.py lines 127-150) -/

/-- What get_statistics returns: the error dict on a not-ready engine, or the
    statistics dict. -/
inductive StatsResult where
  | error (msg : String)
  | stats (total_papers : Nat) (papers_by_year : List (String × Nat))
      (top_journals : List (String × Nat)) (embedding_dimensions : Nat)
deriving DecidableEq, Repr

/-- `counts[k] = counts.get(k, 0) + 1` on an insertion-ordered dict. -/
def bumpCount (k : String) : List (String × Nat) → List (String × Nat)
  | [] => [(k, 1)]
  | p :: rest => if p.1 = k then (p.1, p.2 + 1) :: rest else p :: bumpCount k rest

/-- The counting loop of lines 135-142 (an insertion-ordered dict of counts).
    The model's metadata records always carry their fields, so the 'Unknown'
    default for a missing key does not arise. -/
def countByKey (key : PaperMeta → String) (l : List PaperMeta) : List (String × Nat) :=
  l.foldl (fun acc m => bumpCount (key m) acc) []

/-- Python string comparison: lexicographic by code point. -/
def charsLt : List Char → List Char → Bool
  | [], [] => false
  | [], _ :: _ => true
  | _ :: _, [] => false
  | a :: as, b :: bs => if a < b then true else if b < a then false else charsLt as bs

/-- `sorted(year_counts.items(), reverse=True)`: the keys of a dict are
    distinct, so the tuples sort by key descending. -/
def insertKeyDesc (p : String × Nat) : List (String × Nat) → List (String × Nat)
  | [] => [p]
  | q :: qs => if charsLt q.1.toList p.1.toList then p :: q :: qs else q :: insertKeyDesc p qs

/-- `sorted(journal_counts.items(), key=lambda x: x[1], reverse=True)`: stable
    descending sort by count, ties keeping first-seen order. -/
def insertCountDesc (p : String × Nat) : List (String × Nat) → List (String × Nat)
  | [] => [p]
  | q :: qs => if q.2 < p.2 then p :: q :: qs else q :: insertCountDesc p qs

/-- MedScopeSearchEngine.get_statistics. -/
def get_statistics (eg : Engine) : StatsResult :=
  if eg.is_ready = false then .error "Search engine not initialized"
  else
    let year_counts := countByKey (fun m => m.year) eg.metadata
    let journal_counts := countByKey (fun m => m.journal) eg.metadata
    .stats eg.metadata.length
      (year_counts.foldl (fun acc p => insertKeyDesc p acc) [])
      ((journal_counts.foldl (fun acc p => insertCountDesc p acc) []).take 10)
      (match eg.embeddings with | [] => 0 | v :: _ => v.length)

deriving instance DecidableEq for Except

/-! ## Fixtures used by concrete witnesses and counterexamples -/

/-- A metadata record carrying only a year. -/
def metaY (y : String) : PaperMeta := ⟨"", "", "", "", y, "", "", ""⟩

/-- A candidate carrying only a year, with score 0. -/
def resY (y : String) : RankedResult := ⟨metaY y, 0⟩

/-- A ready engine over the given metadata (one stored vector per record). -/
def readyEngine (ms : List PaperMeta) : Engine :=
  { is_ready := true, embeddings := ms.map (fun _ => [1]), metadata := ms }

/-- The engine state after a failed load. -/
def notReadyEngine : Engine := { is_ready := false, embeddings := [], metadata := [] }

/-! ## Lemmas: cosine similarity -/

/-- A squared norm is a sum of squares, hence nonnegative. -/
lemma normSq_nonneg (u : List ℚ) : 0 ≤ normSq u := by
  unfold normSq
  induction u with
  | nil => simp [dot]
  | cons a as ih =>
    simp only [dot]
    exact add_nonneg (mul_self_nonneg a) ih

/-- The divisor of the similarity computation is zero exactly when the product
    of the squared norms is zero, which certifies the branch condition used in
    `cosineSim`. -/
lemma norm2_mul_eq_zero (u v : List ℚ) :
    norm2 u * norm2 v = 0 ↔ normSq u * normSq v = 0 := by
  have hu : norm2 u = 0 ↔ normSq u = 0 := by
    rw [norm2, Real.sqrt_eq_zero (by exact_mod_cast normSq_nonneg u)]
    exact_mod_cast Iff.rfl
  have hv : norm2 v = 0 ↔ normSq v = 0 := by
    rw [norm2, Real.sqrt_eq_zero (by exact_mod_cast normSq_nonneg v)]
    exact_mod_cast Iff.rfl
  rw [mul_eq_zero, mul_eq_zero, hu, hv]

/-! ## Lemmas: ranking -/

/-- Strict ranking order: by score ascending, ties by index ascending.  The
    stable ascending argsort is sorted by exactly this order. -/
def rankLt (xs : List ℚ) (i j : Nat) : Prop :=
  xs.getD i 0 < xs.getD j 0 ∨ (xs.getD i 0 = xs.getD j 0 ∧ i < j)

lemma mem_insertRank {xs : List ℚ} {i a : Nat} {l : List Nat} :
    a ∈ insertRank xs i l ↔ a = i ∨ a ∈ l := by
  induction l with
  | nil => simp [insertRank]
  | cons j js ih =>
    simp only [insertRank]
    split
    · simp [List.mem_cons]
    · simp only [List.mem_cons, ih]
      tauto

lemma insertRank_perm (xs : List ℚ) (i : Nat) (l : List Nat) :
    (insertRank xs i l).Perm (i :: l) := by
  induction l with
  | nil => exact List.Perm.refl _
  | cons j js ih =>
    simp only [insertRank]
    split
    · exact List.Perm.refl _
    · exact (ih.cons j).trans (List.Perm.swap i j js)

lemma pairwise_insertRank {xs : List ℚ} {i : Nat} {l : List Nat}
    (hp : List.Pairwise (rankLt xs) l) (hlt : ∀ a ∈ l, a < i) :
    List.Pairwise (rankLt xs) (insertRank xs i l) := by
  induction l with
  | nil => simp [insertRank]
  | cons j js ih =>
    rcases List.pairwise_cons.mp hp with ⟨hj, hjs⟩
    simp only [insertRank]
    split
    case isTrue h =>
      refine List.pairwise_cons.mpr ⟨?_, hp⟩
      intro b hb
      rcases List.mem_cons.mp hb with rfl | hb2
      · exact Or.inl h
      · rcases hj b hb2 with h1 | ⟨h1, _⟩
        · exact Or.inl (h.trans h1)
        · exact Or.inl (h1 ▸ h)
    case isFalse h =>
      refine List.pairwise_cons.mpr
        ⟨?_, ih hjs (fun a ha => hlt a (List.mem_cons_of_mem _ ha))⟩
      intro b hb
      rcases mem_insertRank.mp hb with rfl | hb2
      · rcases lt_or_eq_of_le (not_lt.mp h) with h1 | h1
        · exact Or.inl h1
        · exact Or.inr ⟨h1, hlt j (List.mem_cons_self j js)⟩
      · exact hj b hb2

lemma argsort_pairwise_aux (xs : List ℚ) :
    ∀ (L acc : List Nat), List.Pairwise (· < ·) L → List.Pairwise (rankLt xs) acc →
      (∀ a ∈ acc, ∀ i ∈ L, a < i) →
      List.Pairwise (rankLt xs) (L.foldl (fun acc i => insertRank xs i acc) acc) := by
  intro L
  induction L with
  | nil => exact fun acc _ hacc _ => hacc
  | cons i L ih =>
    intro acc hL hacc hcross
    simp only [List.foldl_cons]
    rcases List.pairwise_cons.mp hL with ⟨hiL, hL2⟩
    refine ih _ hL2 (pairwise_insertRank hacc
      (fun a ha => hcross a ha i (List.mem_cons_self i L))) ?_
    intro a ha i2 hi2
    rcases mem_insertRank.mp ha with rfl | ha2
    · exact hiL i2 hi2
    · exact hcross a ha2 i2 (List.mem_cons_of_mem _ hi2)

/-- The stable argsort is sorted by ascending score, ties by ascending index. -/
lemma argsort_pairwise (xs : List ℚ) : List.Pairwise (rankLt xs) (argsort xs) :=
  argsort_pairwise_aux xs _ _ (List.pairwise_lt_range _) (by simp) (by simp)

lemma foldl_insertRank_perm (xs : List ℚ) :
    ∀ (L acc : List Nat), (L.foldl (fun acc i => insertRank xs i acc) acc).Perm (acc ++ L) := by
  intro L
  induction L with
  | nil => intro acc; simp
  | cons i L ih =>
    intro acc
    simp only [List.foldl_cons]
    refine (ih _).trans ?_
    refine (((insertRank_perm xs i acc).append_right L).trans ?_)
    exact List.perm_middle.symm

/-- The argsort is a permutation of the index range. -/
lemma argsort_perm (xs : List ℚ) : (argsort xs).Perm (List.range xs.length) := by
  simpa using foldl_insertRank_perm xs (List.range xs.length) []

lemma argsort_length (xs : List ℚ) : (argsort xs).length = xs.length := by
  rw [(argsort_perm xs).length_eq, List.length_range]

lemma mem_argsort {xs : List ℚ} {i : Nat} : i ∈ argsort xs ↔ i < xs.length := by
  rw [(argsort_perm xs).mem_iff, List.mem_range]

lemma argsort_nodup (xs : List ℚ) : (argsort xs).Nodup :=
  (argsort_perm xs).symm.nodup (List.nodup_range _)

lemma topIndices_length (xs : List ℚ) (k : Nat) :
    (topIndices xs k).length = min k xs.length := by
  simp [topIndices, argsort_length]

/-- The selected indices are sorted by non-strictly descending score. -/
lemma topIndices_sorted (xs : List ℚ) (k : Nat) :
    List.Pairwise (fun i j => xs.getD j 0 ≤ xs.getD i 0) (topIndices xs k) := by
  have h1 : List.Pairwise (fun i j => rankLt xs j i) (argsort xs).reverse :=
    List.pairwise_reverse.mpr (argsort_pairwise xs)
  have h2 := List.Pairwise.sublist (List.take_sublist k _) h1
  refine h2.imp ?_
  intro i j hji
  rcases hji with h | ⟨h, _⟩
  · exact le_of_lt h
  · exact le_of_eq h

lemma mem_topIndices {xs : List ℚ} {k i : Nat} (h : i ∈ topIndices xs k) :
    i < xs.length :=
  mem_argsort.mp (List.mem_reverse.mp ((List.take_sublist k _).subset h))

lemma topIndices_nodup (xs : List ℚ) (k : Nat) : (topIndices xs k).Nodup :=
  (List.take_sublist k _).nodup (List.nodup_reverse.mpr (argsort_nodup xs))

/-- Every selected index scores at least as high as every unselected index:
    the lookup returns the k highest-scoring indices. -/
lemma topIndices_highest (xs : List ℚ) (k : Nat) :
    ∀ i ∈ topIndices xs k, ∀ j, j < xs.length → j ∉ topIndices xs k →
      xs.getD j 0 ≤ xs.getD i 0 := by
  intro i hi j hj hnot
  have hrev : List.Pairwise (fun a b => rankLt xs b a) (argsort xs).reverse :=
    List.pairwise_reverse.mpr (argsort_pairwise xs)
  have hsplit := List.take_append_drop k (argsort xs).reverse
  have hjrev : j ∈ (argsort xs).reverse := List.mem_reverse.mpr (mem_argsort.mpr hj)
  have hjdrop : j ∈ (argsort xs).reverse.drop k := by
    rcases List.mem_append.mp (hsplit ▸ hjrev) with h | h
    · exact absurd h hnot
    · exact h
  have hcross := (List.pairwise_append.mp (hsplit ▸ hrev)).2.2
  rcases hcross i hi j hjdrop with h | ⟨h, _⟩
  · exact le_of_lt h
  · exact le_of_eq h

/-- With k at least the corpus size, the lookup returns all indices. -/
lemma topIndices_all (xs : List ℚ) : topIndices xs xs.length = (argsort xs).reverse := by
  unfold topIndices
  refine List.take_of_length_le ?_
  simp [argsort_length]

/-- Tie direction of the modelled argsort-then-reverse: on equal scores the
    later corpus index comes out first. -/
lemma topIndices_ties (xs : List ℚ) (i j : Nat) (hij : i < j) (hj : j < xs.length)
    (heq : xs.getD i 0 = xs.getD j 0) :
    (topIndices xs xs.length).indexOf j < (topIndices xs xs.length).indexOf i := by
  rw [topIndices_all]
  set rev := (argsort xs).reverse with hrevdef
  have hrev : List.Pairwise (fun a b => rankLt xs b a) rev :=
    List.pairwise_reverse.mpr (argsort_pairwise xs)
  have hi : i ∈ rev := List.mem_reverse.mpr (mem_argsort.mpr (hij.trans hj))
  have hjm : j ∈ rev := List.mem_reverse.mpr (mem_argsort.mpr hj)
  have hpi : rev.indexOf i < rev.length := List.indexOf_lt_length.mpr hi
  have hpj : rev.indexOf j < rev.length := List.indexOf_lt_length.mpr hjm
  have hgeti : rev.get ⟨rev.indexOf i, hpi⟩ = i := List.indexOf_get hpi
  have hgetj : rev.get ⟨rev.indexOf j, hpj⟩ = j := List.indexOf_get hpj
  rcases lt_trichotomy (rev.indexOf j) (rev.indexOf i) with h | h | h
  · exact h
  · exfalso
    have : i = j := by rw [← hgeti, ← hgetj]; congr 1; exact (Fin.ext h.symm)
    exact absurd this (Nat.ne_of_lt hij)
  · exfalso
    have := List.pairwise_iff_get.mp hrev ⟨rev.indexOf i, hpi⟩ ⟨rev.indexOf j, hpj⟩ h
    rw [hgeti, hgetj] at this
    rcases this with h1 | ⟨h1, h2⟩
    · rw [heq] at h1; exact absurd h1 (lt_irrefl _)
    · exact absurd hij (Nat.lt_asymm h2)

/-! ## Lemmas: the year filter -/

lemma isOk_map (e : Except Unit (List RankedResult)) (f : List RankedResult → List RankedResult) :
    (e.map f).isOk = e.isOk := by
  cases e <;> rfl

lemma filter_by_year_go_sublist (yf : String) :
    ∀ l l2, filter_by_year_go yf l = .ok l2 → l2.Sublist l := by
  intro l
  induction l with
  | nil =>
    intro l2 h
    simp only [filter_by_year_go, Except.ok.injEq] at h
    subst h
    exact List.Sublist.refl []
  | cons r rs ih =>
    intro l2 h
    simp only [filter_by_year_go] at h
    split at h
    · split at h
      · exact (ih l2 h).cons r
      · split at h
        · exact absurd h (by simp)
        · split at h
          · cases hrec : filter_by_year_go yf rs with
            | error e => rw [hrec] at h; simp [Except.map] at h
            | ok t =>
              rw [hrec] at h
              simp only [Except.map, Except.ok.injEq] at h
              subst h
              exact (ih t hrec).cons₂ r
          · exact (ih l2 h).cons r
    · split at h
      · split at h
        · cases hrec : filter_by_year_go yf rs with
          | error e => rw [hrec] at h; simp [Except.map] at h
          | ok t =>
            rw [hrec] at h
            simp only [Except.map, Except.ok.injEq] at h
            subst h
            exact (ih t hrec).cons₂ r
        · exact (ih l2 h).cons r
      · cases hrec : filter_by_year_go yf rs with
        | error e => rw [hrec] at h; simp [Except.map] at h
        | ok t =>
          rw [hrec] at h
          simp only [Except.map, Except.ok.injEq] at h
          subst h
          exact (ih t hrec).cons₂ r

lemma filter_by_year_sublist (l : List RankedResult) (yf : Option String) (l2 : List RankedResult)
    (h : filter_by_year l yf = .ok l2) : l2.Sublist l := by
  unfold filter_by_year at h
  split at h
  · exact filter_by_year_go_sublist _ l l2 h
  · simp only [Except.ok.injEq] at h
    subst h
    exact List.Sublist.refl l

lemma yearStep_sublist (l : List RankedResult) (yf : Option String) (l2 : List RankedResult)
    (h : yearStep l yf = .ok l2) : l2.Sublist l := by
  unfold yearStep at h
  split at h
  · exact filter_by_year_sublist l yf l2 h
  · simp only [Except.ok.injEq] at h
    subst h
    exact List.Sublist.refl l

/-- The filter loop completes without raising exactly when every record's year
    is empty or parses as an int (for a "recent"/"latest" filter value). -/
lemma filter_by_year_go_isOk (yf : String)
    (hb : (pyLower yf == "recent" || pyLower yf == "latest") = true) :
    ∀ l, (filter_by_year_go yf l).isOk = true ↔
      ∀ r ∈ l, r.meta.year = "" ∨ (pyInt r.meta.year).isSome = true := by
  intro l
  induction l with
  | nil => simp [filter_by_year_go, Except.isOk, Except.toBool]
  | cons r rs ih =>
    by_cases hy : (r.meta.year == "") = true
    · simp only [filter_by_year_go, hb, if_true, hy]
      rw [ih]
      constructor
      · intro hall r2 hr2
        rcases List.mem_cons.mp hr2 with rfl | h2
        · exact Or.inl (by simpa using hy)
        · exact hall r2 h2
      · intro hall r2 hr2
        exact hall r2 (List.mem_cons_of_mem _ hr2)
    · cases hint : pyInt r.meta.year with
      | none =>
        simp only [filter_by_year_go, hb, if_true, hy, if_false, hint]
        simp only [Except.isOk, Except.toBool]
        constructor
        · intro h; cases h
        · intro hall
          rcases hall r (List.mem_cons_self r rs) with h | h
          · exact absurd (by simpa using h) (by simpa using hy)
          · rw [hint] at h; cases h
      | some y =>
        have hr : r.meta.year = "" ∨ (pyInt r.meta.year).isSome = true :=
          Or.inr (by rw [hint]; rfl)
        have htail : ((filter_by_year_go yf rs).isOk = true ↔
            ∀ r2 ∈ r :: rs, r2.meta.year = "" ∨ (pyInt r2.meta.year).isSome = true) := by
          rw [ih]
          constructor
          · intro hall r2 hr2
            rcases List.mem_cons.mp hr2 with rfl | h2
            · exact hr
            · exact hall r2 h2
          · intro hall r2 hr2
            exact hall r2 (List.mem_cons_of_mem _ hr2)
        simp only [filter_by_year_go, hb, if_true, hy, Bool.false_eq_true, if_false, hint]
        by_cases hge : 2022 ≤ y
        · rw [if_pos hge, isOk_map]
          exact htail
        · rw [if_neg hge]
          exact htail

/-- The year-keeping rule exactly as the specification words it: `recent` and
    `latest` keep numeric years at least 2022 (the specification's
    current_year 2024 minus 2, which the code hardcodes as the literal 2022); a
    purely numeric filter keeps exact matches; anything else keeps all.  This
    definition follows the spec's words, to be compared with the code-derived
    `filter_by_year`. -/
def specYearKeep (yf : String) (r : RankedResult) : Bool :=
  if pyLower yf == "recent" || pyLower yf == "latest" then
    match pyInt r.meta.year with
    | some y => decide (2022 ≤ y)
    | none => false
  else if pyIsdigit yf then r.meta.year == yf
  else true

/-- On records whose years are empty or parseable, the code's filter agrees
    with the spec's keeping rule. -/
lemma filter_by_year_go_eq (yf : String) :
    ∀ l, (∀ r ∈ l, r.meta.year = "" ∨ (pyInt r.meta.year).isSome = true) →
      filter_by_year_go yf l = .ok (l.filter (specYearKeep yf)) := by
  intro l
  induction l with
  | nil => intro _; simp [filter_by_year_go]
  | cons r rs ih =>
    intro h
    have hr := h r (List.mem_cons_self r rs)
    have hrs := ih (fun r2 h2 => h r2 (List.mem_cons_of_mem _ h2))
    by_cases hb : (pyLower yf == "recent" || pyLower yf == "latest") = true
    · by_cases hy : (r.meta.year == "") = true
      · have hy2 : r.meta.year = "" := by simpa using hy
        have hint : pyInt r.meta.year = none := by
          rw [hy2]; rfl
        have hkeep : specYearKeep yf r = false := by
          simp only [specYearKeep, hb, if_true, hint]
        simp only [filter_by_year_go, hb, if_true, hy, List.filter_cons, hkeep,
          Bool.false_eq_true, if_false, hrs]
      · cases hint : pyInt r.meta.year with
        | none =>
          rcases hr with h1 | h1
          · exact absurd (by simpa using h1) (by simpa using hy)
          · rw [hint] at h1; cases h1
        | some y =>
          by_cases hge : 2022 ≤ y
          · have hkeep : specYearKeep yf r = true := by
              simp only [specYearKeep, hb, if_true, hint]
              exact decide_eq_true hge
            simp only [filter_by_year_go, hb, if_true, hy, Bool.false_eq_true, if_false,
              hint, hge, List.filter_cons, hkeep, hrs, Except.map]
          · have hkeep : specYearKeep yf r = false := by
              simp only [specYearKeep, hb, if_true, hint]
              exact decide_eq_false hge
            simp only [filter_by_year_go, hb, if_true, hy, Bool.false_eq_true, if_false,
              hint, hge, List.filter_cons, hkeep, hrs, Except.map]
    · by_cases hd : pyIsdigit yf = true
      · by_cases hm : (r.meta.year == yf) = true
        · have hkeep : specYearKeep yf r = true := by
            simp only [specYearKeep, hb, Bool.false_eq_true, if_false, hd, if_true, hm]
          simp only [filter_by_year_go, hb, Bool.false_eq_true, if_false, hd, if_true,
            hm, List.filter_cons, hkeep, hrs, Except.map]
        · have hkeep : specYearKeep yf r = false := by
            simp only [specYearKeep, hb, Bool.false_eq_true, if_false, hd, if_true, hm]
          simp only [filter_by_year_go, hb, Bool.false_eq_true, if_false, hd, if_true,
            hm, List.filter_cons, hkeep, hrs, Except.map]
      · have hkeep : specYearKeep yf r = true := by
          simp only [specYearKeep, hb, Bool.false_eq_true, if_false, hd]
        simp only [filter_by_year_go, hb, Bool.false_eq_true, if_false, hd,
          List.filter_cons, hkeep, if_true, hrs, Except.map]

/-! ## Lemmas: search -/

/-- On a not-ready engine, search returns the single sentinel error dict. -/
lemma search_not_ready (eg : Engine) (simsOf : String → List ℚ) (q : String) (k : Nat)
    (yf : Option String) (ms : ℚ) (h : eg.is_ready = false) :
    search eg simsOf q k yf ms = .ok [.error "Search engine not properly initialized"] := by
  unfold search
  rw [h]
  rfl

/-- On a ready engine, an exception escaping the year filter escapes search. -/
lemma search_ready_error (eg : Engine) (simsOf : String → List ℚ) (q : String) (k : Nat)
    (yf : Option String) (ms : ℚ) (e : Unit) (h : eg.is_ready = true)
    (hys : yearStep (searchCandidates eg simsOf q k ms) yf = .error e) :
    search eg simsOf q k yf ms = .error e := by
  unfold search
  rw [h, hys]
  rfl

/-- On a ready engine, search truncates and finalizes what the year step keeps. -/
lemma search_ready_ok (eg : Engine) (simsOf : String → List ℚ) (q : String) (k : Nat)
    (yf : Option String) (ms : ℚ) (kept : List RankedResult) (h : eg.is_ready = true)
    (hys : yearStep (searchCandidates eg simsOf q k ms) yf = .ok kept) :
    search eg simsOf q k yf ms =
      .ok ((kept.take k).map (fun r => ResultItem.paper (finalize q (preprocess_query q) r))) := by
  unfold search
  rw [h, hys]
  rfl

/-- The ranked candidates come out sorted by non-strictly descending score. -/
lemma search_similar_papers_sorted (sims : List ℚ) (md : List PaperMeta) (k : Nat) :
    List.Pairwise (fun a b => b.similarity_score ≤ a.similarity_score)
      (search_similar_papers sims md k) := by
  unfold search_similar_papers
  split
  · exact List.Pairwise.nil
  · exact List.Pairwise.map _ (fun i j hji => hji) (topIndices_sorted sims k)

/-- Every over-fetched candidate that survives the threshold filter meets the
    threshold. -/
lemma searchCandidates_threshold (eg : Engine) (simsOf : String → List ℚ) (q : String)
    (k : Nat) (ms : ℚ) :
    ∀ r ∈ searchCandidates eg simsOf q k ms, ms ≤ r.similarity_score := by
  intro r hr
  unfold searchCandidates at hr
  exact of_decide_eq_true (List.mem_filter.mp hr).2

/-- The surviving candidates are sorted by non-strictly descending score. -/
lemma searchCandidates_sorted (eg : Engine) (simsOf : String → List ℚ) (q : String)
    (k : Nat) (ms : ℚ) :
    List.Pairwise (fun a b => b.similarity_score ≤ a.similarity_score)
      (searchCandidates eg simsOf q k ms) :=
  (search_similar_papers_sorted _ _ _).filter _

/-! ## Lemmas: whitespace-only partial queries -/

/-- Lowercasing leaves a whitespace character unchanged. -/
lemma char_toLower_space (c : Char) (h : pyIsSpace c = true) : c.toLower = c := by
  simp only [pyIsSpace, Bool.or_eq_true, decide_eq_true_eq] at h
  rcases h with ((((rfl | rfl) | rfl) | rfl) | rfl) | rfl <;> decide

lemma map_toLower_space : ∀ l : List Char, l.all pyIsSpace = true →
    l.map Char.toLower = l := by
  intro l
  induction l with
  | nil => intro _; rfl
  | cons a as ih =>
    intro h
    rw [List.all_cons, Bool.and_eq_true] at h
    simp only [List.map_cons, char_toLower_space a h.1, ih h.2]

/-- str.lower() fixes a whitespace-only string. -/
lemma pyLower_space (pq : String) (h : pq.toList.all pyIsSpace = true) :
    pyLower pq = pq := by
  have hmap : pq.toList.map Char.toLower = pq.toList := map_toLower_space _ h
  unfold pyLower
  rw [hmap]
  cases pq
  rfl

lemma pySplitChars_space : ∀ l : List Char, l.all pyIsSpace = true →
    pySplitChars [] l = [] := by
  intro l
  induction l with
  | nil => intro _; rfl
  | cons c cs ih =>
    intro h
    rw [List.all_cons, Bool.and_eq_true] at h
    simp only [pySplitChars, h.1, if_true, List.isEmpty_nil]
    exact ih h.2

/-- str.split() of a whitespace-only string yields no words. -/
lemma pySplit_space (pq : String) (h : pq.toList.all pyIsSpace = true) :
    pySplit pq = [] :=
  pySplitChars_space _ h

/-- A nonempty whitespace-only pattern other than the single space occurs in no
    single-spaced character list: a one-character pattern would have to be a
    non-space whitespace character, and a longer pattern would need two
    adjacent whitespace characters. -/
lemma not_infixAt_of_space (sub : List Char) (hall : sub.all pyIsSpace = true)
    (hne : sub ≠ []) (hne2 : sub ≠ [' ']) :
    ∀ l, singleSpaced l = true → infixAt sub l = false := by
  intro l
  induction l with
  | nil =>
    intro _
    cases sub with
    | nil => exact absurd rfl hne
    | cons a as => rfl
  | cons c cs ih =>
    intro hl
    simp only [singleSpaced, Bool.and_eq_true] at hl
    obtain ⟨h1, h2⟩ := hl
    simp only [infixAt, ih h2, Bool.or_false]
    cases sub with
    | nil => exact absurd rfl hne
    | cons a as =>
      by_cases hac : (a == c) = true
      · have hac2 : a = c := by simpa using hac
        have haspace : pyIsSpace a = true := by
          rw [List.all_cons, Bool.and_eq_true] at hall
          exact hall.1
        have hcspace : pyIsSpace c = true := hac2 ▸ haspace
        rw [hcspace] at h1
        simp only [Bool.not_true, Bool.false_or, Bool.and_eq_true] at h1
        obtain ⟨hcsp, hhead⟩ := h1
        have hcsp2 : c = ' ' := by simpa using hcsp
        cases as with
        | nil => exact absurd (by rw [hac2, hcsp2]) hne2
        | cons b bs =>
          cases cs with
          | nil => simp [List.isPrefixOf]
          | cons d ds =>
            have hdnot : pyIsSpace d = false := by
              simp only [headNotSpace, Bool.not_eq_true'] at hhead
              exact hhead
            have hbspace : pyIsSpace b = true := by
              rw [List.all_cons, List.all_cons, Bool.and_eq_true, Bool.and_eq_true] at hall
              exact hall.2.1
            have hbd : (b == d) = false := by
              rw [beq_eq_false_iff_ne]
              intro hbd2
              rw [hbd2, hdnot] at hbspace
              cases hbspace
            simp [List.isPrefixOf, hbd]
      · have hac2 : (a == c) = false := by simpa using hac
        simp [List.isPrefixOf, hac2]

/-- Every curated topic is single-spaced. -/
lemma topics_singleSpaced : ∀ t ∈ topics, singleSpaced t.toList = true := by
  decide

/-! ## Claim theorems -/

/-- The score a returned item carries (the sentinel error dict carries none;
    score 0 is used for it). -/
def itemScore : ResultItem → ℚ
  | .error _ => 0
  | .paper r => r.similarity_score

/-- Claim C1: for every query, top_k, year_filter and min_similarity, on a
    ready engine a returning search yields the truncation of the exact
    filtered candidate list: at most top_k results, sorted by similarity_score
    in non-strictly descending order, every result's similarity_score at least
    min_similarity, and when filtering leaves fewer than top_k candidates the
    shorter sequence is returned with no padding (the output length is the
    minimum of top_k and the surviving-candidate count). -/
theorem search_sorted_bounded_thresholded
    (eg : Engine) (simsOf : String → List ℚ) (query : String) (top_k : Nat)
    (year_filter : Option String) (min_similarity : ℚ) (out : List ResultItem)
    (hready : eg.is_ready = true)
    (hok : search eg simsOf query top_k year_filter min_similarity = .ok out) :
    ∃ kept : List RankedResult,
      yearStep (searchCandidates eg simsOf query top_k min_similarity) year_filter
        = .ok kept ∧
      out = (kept.take top_k).map
        (fun r => ResultItem.paper (finalize query (preprocess_query query) r)) ∧
      out.length = min top_k kept.length ∧
      out.length ≤ top_k ∧
      List.Pairwise (fun a b => itemScore b ≤ itemScore a) out ∧
      (∀ item ∈ out, ∃ r : FinalResult, item = ResultItem.paper r ∧
        min_similarity ≤ r.similarity_score) := by
  cases hys : yearStep (searchCandidates eg simsOf query top_k min_similarity) year_filter with
  | error e =>
    rw [search_ready_error eg simsOf query top_k year_filter min_similarity e hready hys] at hok
    cases hok
  | ok kept =>
    rw [search_ready_ok eg simsOf query top_k year_filter min_similarity kept hready hys] at hok
    simp only [Except.ok.injEq] at hok
    subst hok
    have hkept : kept.Sublist (searchCandidates eg simsOf query top_k min_similarity) :=
      yearStep_sublist _ _ _ hys
    refine ⟨kept, rfl, rfl, ?_, ?_, ?_, ?_⟩
    · simp [List.length_take]
    · simp only [List.length_map, List.length_take]
      exact Nat.min_le_left _ _
    · have h1 := List.Pairwise.sublist hkept
        (searchCandidates_sorted eg simsOf query top_k min_similarity)
      have h2 := List.Pairwise.sublist (List.take_sublist top_k kept) h1
      exact List.Pairwise.map _ (fun a b hba => hba) h2
    · intro item hitem
      rcases List.mem_map.mp hitem with ⟨r, hr, rfl⟩
      refine ⟨finalize query (preprocess_query query) r, rfl, ?_⟩
      have hrk : r ∈ kept := (List.take_sublist top_k kept).subset hr
      exact searchCandidates_threshold eg simsOf query top_k min_similarity r
        (hkept.subset hrk)

/-- Witness for C1 at a concrete ready engine: the single stored vector scores
    0 against the query, the threshold is 1, so the returning search yields the
    empty (unpadded) result list satisfying every clause. -/
theorem search_sorted_bounded_thresholded_witness :
    ∃ kept : List RankedResult,
      yearStep (searchCandidates (readyEngine [metaY "2024"]) (fun _ => [0]) "q" 3 1) none
        = .ok kept ∧
      ([] : List ResultItem) = (kept.take 3).map
        (fun r => ResultItem.paper (finalize "q" (preprocess_query "q") r)) ∧
      ([] : List ResultItem).length = min 3 kept.length ∧
      ([] : List ResultItem).length ≤ 3 ∧
      List.Pairwise (fun a b => itemScore b ≤ itemScore a) ([] : List ResultItem) ∧
      (∀ item ∈ ([] : List ResultItem), ∃ r : FinalResult, item = ResultItem.paper r ∧
        (1 : ℚ) ≤ r.similarity_score) :=
  search_sorted_bounded_thresholded (readyEngine [metaY "2024"]) (fun _ => [0]) "q" 3
    none 1 [] rfl (by decide)

/-- Claim C2, counterexample: two stored vectors with equal scores come back
    with the later corpus index first — search_similar_papers returns document
    1 before document 0, not the claimed original corpus order. -/
theorem nearest_tie_order_cex :
    search_similar_papers [(5 : ℚ), 5] [metaY "a", metaY "b"] 2 =
      [{ meta := metaY "b", similarity_score := 5 },
       { meta := metaY "a", similarity_score := 5 }] ∧
    search_similar_papers [(5 : ℚ), 5] [metaY "a", metaY "b"] 2 ≠
      [{ meta := metaY "a", similarity_score := 5 },
       { meta := metaY "b", similarity_score := 5 }] ∧
    topIndices [(5 : ℚ), 5] 2 = [1, 0] := by
  refine ⟨by decide, by decide, by decide⟩

/-- Claim C2 as amended: for every score vector and every k, the lookup indices
    are the k highest-scoring corpus indices in non-strictly descending score
    order, k is clamped to the corpus size, and ties between equal scores are
    broken by reverse corpus order — the later-indexed document first (the
    ascending argsort is stable and the order is then reversed). -/
theorem nearest_k_highest_desc (sims : List ℚ) (md : List PaperMeta) (k : Nat) :
    (topIndices sims k).length = min k sims.length ∧
    List.Pairwise (fun i j => sims.getD j 0 ≤ sims.getD i 0) (topIndices sims k) ∧
    (∀ i ∈ topIndices sims k, i < sims.length) ∧
    (topIndices sims k).Nodup ∧
    (∀ i ∈ topIndices sims k, ∀ j, j < sims.length → j ∉ topIndices sims k →
      sims.getD j 0 ≤ sims.getD i 0) ∧
    (∀ i j, i < j → j < sims.length → sims.getD i 0 = sims.getD j 0 →
      (topIndices sims sims.length).indexOf j < (topIndices sims sims.length).indexOf i) ∧
    (sims.length ≠ 0 → search_similar_papers sims md k = (topIndices sims k).map
      (fun i => { meta := md.getD i default, similarity_score := sims.getD i 0 })) := by
  refine ⟨topIndices_length sims k, topIndices_sorted sims k,
    fun i hi => mem_topIndices hi, topIndices_nodup sims k,
    topIndices_highest sims k,
    fun i j hij hj heq => topIndices_ties sims i j hij hj heq, ?_⟩
  intro hne
  unfold search_similar_papers
  rw [if_neg hne]

/-- Witness for C2 at a concrete score vector. -/
theorem nearest_k_highest_desc_witness :
    (topIndices [(1 : ℚ), 3, 2] 2).length = min 2 [(1 : ℚ), 3, 2].length ∧
    List.Pairwise (fun i j => [(1 : ℚ), 3, 2].getD j 0 ≤ [(1 : ℚ), 3, 2].getD i 0)
      (topIndices [(1 : ℚ), 3, 2] 2) ∧
    (∀ i ∈ topIndices [(1 : ℚ), 3, 2] 2, i < [(1 : ℚ), 3, 2].length) ∧
    (topIndices [(1 : ℚ), 3, 2] 2).Nodup ∧
    (∀ i ∈ topIndices [(1 : ℚ), 3, 2] 2, ∀ j, j < [(1 : ℚ), 3, 2].length →
      j ∉ topIndices [(1 : ℚ), 3, 2] 2 →
      [(1 : ℚ), 3, 2].getD j 0 ≤ [(1 : ℚ), 3, 2].getD i 0) ∧
    (∀ i j, i < j → j < [(1 : ℚ), 3, 2].length →
      [(1 : ℚ), 3, 2].getD i 0 = [(1 : ℚ), 3, 2].getD j 0 →
      (topIndices [(1 : ℚ), 3, 2] [(1 : ℚ), 3, 2].length).indexOf j <
        (topIndices [(1 : ℚ), 3, 2] [(1 : ℚ), 3, 2].length).indexOf i) ∧
    ([(1 : ℚ), 3, 2].length ≠ 0 →
      search_similar_papers [(1 : ℚ), 3, 2] [metaY "a"] 2 =
        (topIndices [(1 : ℚ), 3, 2] 2).map
          (fun i => { meta := [metaY "a"].getD i default,
                      similarity_score := [(1 : ℚ), 3, 2].getD i 0 })) :=
  nearest_k_highest_desc [(1 : ℚ), 3, 2] [metaY "a"] 2

/-- Claim C3, counterexample: the similarity of a zero-norm vector is the
    undefined outcome of an unguarded division by zero (NaN, modelled `none`),
    not the claimed 0. -/
theorem cosine_zero_norm_cex :
    cosineSim [(0 : ℚ), 0] [1, 1] = none ∧ cosineSim [(0 : ℚ), 0] [1, 1] ≠ some 0 := by
  have h : normSq [(0 : ℚ), 0] * normSq [(1 : ℚ), 1] = 0 := by
    simp [normSq, dot]
  constructor
  · simp only [cosineSim, if_pos h]
  · simp only [cosineSim, if_pos h]
    exact fun hc => Option.noConfusion hc

/-- Claim C3 as amended: similarity is the dot product divided by the product
    of the two Euclidean norms, computed with no zero guard — when either
    vector has zero (squared) norm the division is by zero and the value is
    undefined (`none`, the NaN/±inf float), not 0; when both norms are nonzero
    it is the stated quotient. -/
theorem cosine_formula_no_guard (u v : List ℚ) :
    ((normSq u = 0 ∨ normSq v = 0) → cosineSim u v = none) ∧
    (normSq u ≠ 0 → normSq v ≠ 0 →
      cosineSim u v = some (((dot u v : ℚ) : ℝ) / (norm2 u * norm2 v))) := by
  constructor
  · intro h
    have hz : normSq u * normSq v = 0 := by
      rcases h with h | h
      · rw [h, zero_mul]
      · rw [h, mul_zero]
    simp only [cosineSim, if_pos hz]
  · intro hu hv
    simp only [cosineSim, if_neg (mul_ne_zero hu hv)]

/-- Witness for C3: a zero vector against a unit vector is undefined, and two
    unit vectors get the stated quotient. -/
theorem cosine_formula_no_guard_witness :
    cosineSim [(0 : ℚ)] [1] = none ∧
    cosineSim [(1 : ℚ)] [1] =
      some (((dot [(1 : ℚ)] [1] : ℚ) : ℝ) / (norm2 [(1 : ℚ)] * norm2 [(1 : ℚ)])) :=
  ⟨(cosine_formula_no_guard [(0 : ℚ)] [1]).1 (Or.inl (by simp [normSq, dot])),
   (cosine_formula_no_guard [(1 : ℚ)] [1]).2 (by simp [normSq, dot]) (by simp [normSq, dot])⟩

/-- Claim C4: for every input, calling search on a not-ready engine returns
    exactly one result carrying an error indicator (the sentinel error dict in
    a one-element list) and never raises an exception (the return is `ok`). -/
theorem notReady_search_single_error (eg : Engine) (simsOf : String → List ℚ)
    (query : String) (top_k : Nat) (year_filter : Option String) (min_similarity : ℚ)
    (h : eg.is_ready = false) :
    search eg simsOf query top_k year_filter min_similarity =
      .ok [.error "Search engine not properly initialized"] :=
  search_not_ready eg simsOf query top_k year_filter min_similarity h

/-- Witness for C4 at the concrete not-ready engine. -/
theorem notReady_search_single_error_witness :
    search notReadyEngine (fun _ => []) "knee pain" 10 none 0 =
      .ok [.error "Search engine not properly initialized"] :=
  notReady_search_single_error notReadyEngine (fun _ => []) "knee pain" 10 none 0 rfl

/-- Claim C5, counterexample: query normalization is not idempotent — the
    expansion of "covid" contains "covid" before a word boundary, so a second
    normalization expands it again. -/
theorem preprocess_not_idempotent_cex :
    preprocess_query (preprocess_query "covid") ≠ preprocess_query "covid" := by
  decide

/-- Claim C5 as amended: expansion is whole-word — "rct on oa" normalizes to
    "randomized controlled trial on osteoarthritis" and "aircraft" is left
    unchanged — but normalization is not idempotent: "covid" normalizes to
    "covid-19 coronavirus", which re-normalizes to
    "covid-19 coronavirus-19 coronavirus". -/
theorem preprocess_whole_word_not_idempotent :
    preprocess_query "rct on oa" = "randomized controlled trial on osteoarthritis" ∧
    preprocess_query "aircraft" = "aircraft" ∧
    preprocess_query "covid" = "covid-19 coronavirus" ∧
    preprocess_query (preprocess_query "covid") = "covid-19 coronavirus-19 coronavirus" := by
  refine ⟨by decide, by decide, by decide, by decide⟩

/-- Claim C6: on candidate lists whose year fields parse (or are empty), the
    year filter keeps exactly what the spec's rule keeps: "recent"/"latest"
    keep numeric years at least 2022 (current_year 2024 minus 2, hardcoded),
    a purely numeric filter keeps exact matches, and any other non-empty value
    keeps all; in particular "recent" against years {2020, 2022, 2023, 2024}
    keeps exactly {2022, 2023, 2024}. -/
theorem filter_by_year_spec (yf : String) (results : List RankedResult)
    (h : ∀ r ∈ results, r.meta.year = "" ∨ (pyInt r.meta.year).isSome = true) :
    filter_by_year results (some yf) = .ok (results.filter (specYearKeep yf)) ∧
    filter_by_year [resY "2020", resY "2022", resY "2023", resY "2024"] (some "recent") =
      .ok [resY "2022", resY "2023", resY "2024"] := by
  constructor
  · by_cases hyf : yf = ""
    · subst hyf
      have hfilter : results.filter (specYearKeep "") = results :=
        List.filter_eq_self.mpr (fun a _ => rfl)
      rw [hfilter]
      rfl
    · have ht : pyTruthy (some yf) = true := by
        simp only [pyTruthy, Bool.not_eq_true']
        exact beq_eq_false_iff_ne.mpr hyf
      unfold filter_by_year
      rw [ht, if_pos rfl]
      exact filter_by_year_go_eq yf results h
  · decide

/-- Witness for C6 at a concrete parseable candidate list. -/
theorem filter_by_year_spec_witness :
    filter_by_year [resY "2019", resY "2023"] (some "latest") =
      .ok (List.filter (specYearKeep "latest") [resY "2019", resY "2023"]) :=
  (filter_by_year_spec "latest" [resY "2019", resY "2023"] (by decide)).1

/-- Claim C7, counterexample: two sources of mismatched lengths (two vectors,
    one metadata record) load successfully and leave the store marked ready —
    the claimed mismatch failure does not exist. -/
theorem load_no_length_check_cex :
    load_embeddings (some [[(1 : ℚ)], [2]]) (some [metaY "2024"]) =
      .ok ([[(1 : ℚ)], [2]], [metaY "2024"]) ∧
    [[(1 : ℚ)], [2]].length ≠ [metaY "2024"].length ∧
    (initEngine (some [[(1 : ℚ)], [2]]) (some [metaY "2024"])).is_ready = true := by
  refine ⟨rfl, by decide, rfl⟩

/-- Claim C7 as amended: load fails exactly when either source is missing or
    unreadable — no length comparison is made, so mismatched collections load
    and mark the store ready — and after a failed load the engine is not ready
    and search and statistics return explicit errors instead of throwing. -/
theorem load_and_readiness (ev : Option (List (List ℚ))) (md : Option (List PaperMeta)) :
    ((load_embeddings ev md).isOk = true ↔ ev.isSome = true ∧ md.isSome = true) ∧
    ((initEngine ev md).is_ready = true ↔ ev.isSome = true ∧ md.isSome = true) ∧
    ((initEngine ev md).is_ready = false →
      ∀ (simsOf : String → List ℚ) (q : String) (k : Nat) (yf : Option String) (ms : ℚ),
        search (initEngine ev md) simsOf q k yf ms =
          .ok [.error "Search engine not properly initialized"] ∧
        get_statistics (initEngine ev md) = .error "Search engine not initialized") := by
  refine ⟨?_, ?_, ?_⟩
  · cases ev <;> cases md <;>
      simp [load_embeddings, initEngine, Except.isOk, Except.toBool]
  · cases ev <;> cases md <;> simp [initEngine]
  · intro h simsOf q k yf ms
    refine ⟨search_not_ready _ simsOf q k yf ms h, ?_⟩
    unfold get_statistics
    rw [h]
    rfl

/-- Witness for C7: a missing vector source leaves the engine not ready, and
    search and statistics then return their explicit errors. -/
theorem load_and_readiness_witness :
    search (initEngine none (some [metaY "2024"])) (fun _ => []) "q" 5 none 0 =
      .ok [.error "Search engine not properly initialized"] ∧
    get_statistics (initEngine none (some [metaY "2024"])) =
      .error "Search engine not initialized" :=
  (load_and_readiness none (some [metaY "2024"])).2.2 rfl (fun _ => []) "q" 5 none 0

/-- Claim C8, counterexample: on a not-ready engine the suggestion operation
    returns a nonempty list of topic suggestions, not an error — it performs no
    readiness check at all. -/
theorem suggestions_ignore_readiness_cex :
    get_search_suggestions notReadyEngine "covid" = ["covid-19 vaccine effectiveness"] ∧
    get_search_suggestions notReadyEngine "covid" ≠ [] := by
  refine ⟨by decide, by decide⟩

/-- Claim C8 as amended: while the engine is not ready, search and statistics
    are no-ops returning explicit errors, but the suggestion operation reads no
    engine state: it returns exactly what it would return on a ready engine. -/
theorem notReady_ops (eg : Engine) (h : eg.is_ready = false) :
    (∀ (simsOf : String → List ℚ) (q : String) (k : Nat) (yf : Option String) (ms : ℚ),
      search eg simsOf q k yf ms = .ok [.error "Search engine not properly initialized"]) ∧
    get_statistics eg = .error "Search engine not initialized" ∧
    (∀ pq : String, get_search_suggestions eg pq =
      get_search_suggestions { eg with is_ready := true } pq) := by
  refine ⟨fun simsOf q k yf ms => search_not_ready eg simsOf q k yf ms h, ?_, fun pq => rfl⟩
  unfold get_statistics
  rw [h]
  rfl

/-- Witness for C8 at the concrete not-ready engine. -/
theorem notReady_ops_witness :
    get_statistics notReadyEngine = .error "Search engine not initialized" :=
  (notReady_ops notReadyEngine rfl).2.1

/-- Claim C9, counterexample: a whitespace-only partial query of two spaces (or
    one tab) returns the empty suggestion list, not the first 5 topics — only
    the empty string and a single space match every topic. -/
theorem suggestions_whitespace_cex :
    get_search_suggestions (readyEngine []) "  " = [] ∧
    get_search_suggestions (readyEngine []) "\t" = [] := by
  refine ⟨by decide, by decide⟩

/-- Claim C9 as amended: for every engine and every whitespace-only partial
    query, the suggestion operation returns exactly the first 5 topics in
    declaration order when the query is the empty string or a single space
    (which occurs in every topic), and the empty list for every other
    whitespace-only query — such a query is a substring of no (single-spaced)
    topic and splits into no words. -/
theorem suggestions_empty_query (eg : Engine) (pq : String)
    (hws : pq.toList.all pyIsSpace = true) :
    get_search_suggestions eg pq =
      if pq = "" ∨ pq = " " then
        ["randomized controlled trials", "systematic review meta-analysis",
         "covid-19 vaccine effectiveness", "machine learning medical diagnosis",
         "physical therapy knee osteoarthritis"]
      else [] := by
  by_cases h0 : pq = ""
  · subst h0
    rw [if_pos (Or.inl rfl)]
    rfl
  · by_cases h1 : pq = " "
    · subst h1
      rw [if_pos (Or.inr rfl)]
      rfl
    · rw [if_neg (by simp [h0, h1])]
      have hne : pq.toList ≠ [] := by
        intro hc
        apply h0
        cases pq with
        | mk d => exact congrArg String.mk hc
      have hne2 : pq.toList ≠ [' '] := by
        intro hc
        apply h1
        cases pq with
        | mk d => exact congrArg String.mk hc
      have hfilter : topics.filter (fun topic => pyInStr pq topic) = [] := by
        rw [List.filter_eq_nil_iff]
        intro t ht
        simp only [pyInStr]
        rw [not_infixAt_of_space pq.toList hws hne hne2 t.toList (topics_singleSpaced t ht)]
        simp
      simp only [get_search_suggestions, pyLower_space pq hws, pySplit_space pq hws,
        List.any_nil, Bool.or_false, hfilter, List.take_nil]

/-- Witness for C9 at two concrete whitespace-only queries, one in each
    branch: a single space yields the first 5 topics, a tab yields nothing. -/
theorem suggestions_empty_query_witness :
    (get_search_suggestions (readyEngine []) " " =
      if (" " : String) = "" ∨ (" " : String) = " " then
        ["randomized controlled trials", "systematic review meta-analysis",
         "covid-19 vaccine effectiveness", "machine learning medical diagnosis",
         "physical therapy knee osteoarthritis"]
      else []) ∧
    (get_search_suggestions (readyEngine []) "\t" =
      if ("\t" : String) = "" ∨ ("\t" : String) = " " then
        ["randomized controlled trials", "systematic review meta-analysis",
         "covid-19 vaccine effectiveness", "machine learning medical diagnosis",
         "physical therapy knee osteoarthritis"]
      else []) :=
  ⟨suggestions_empty_query (readyEngine []) " " (by decide),
   suggestions_empty_query (readyEngine []) "\t" (by decide)⟩

/-- Claim C10: with a "recent"/"latest" year filter, a candidate whose year is
    a non-empty string that does not parse as an integer (such as the date
    string "2024-05-01") makes filter_by_year — and therefore search — raise an
    uncaught exception (`Except.error`) rather than return an error result; the
    filter loop completes without raising exactly when every candidate's year
    is empty or parses as an integer. -/
theorem filter_by_year_raises_on_bad_year :
    filter_by_year [resY "2024-05-01"] (some "recent") = .error () ∧
    (∀ (yf : String) (results : List RankedResult),
      (pyLower yf == "recent" || pyLower yf == "latest") = true →
      ((filter_by_year_go yf results).isOk = true ↔
        ∀ r ∈ results, r.meta.year = "" ∨ (pyInt r.meta.year).isSome = true)) ∧
    search (readyEngine [metaY "2024-05-01"]) (fun _ => [1]) "q" 10 (some "recent") 0 =
      .error () := by
  refine ⟨by decide, fun yf results hb => filter_by_year_go_isOk yf hb results, by decide⟩

/-- Witness for C10: on a parseable year the filter loop completes. -/
theorem filter_by_year_raises_on_bad_year_witness :
    (filter_by_year_go "recent" [resY "2024"]).isOk = true :=
  (filter_by_year_raises_on_bad_year.2.1 "recent" [resY "2024"] (by decide)).mpr (by decide)

end MedScope
